import Mathlib

/-!
Verification of the ssth-backend team-management service.

The development shallowly embeds the two source modules:
  * `DataHandler` — the persistence gateway (`src/data_handler.py`),
    modelled as pure functions over an explicit relational `Store`;
    SQL rows become list entries, the commit/rollback discipline of the
    source (every raise happens before the INSERT or skips the commit)
    becomes "error results return the store unchanged".
  * `Main` — the FastAPI endpoint layer (`src/main.py`), modelled as
    functions from store, cookies and request to a response; a Python
    exception that no `except` clause of the endpoint catches is an
    `Except.error` escaping the endpoint (FastAPI would turn it into a
    500 response).

Randomness (`secrets.randbelow` for identifiers, `bcrypt.gensalt` for
salts) is passed in as explicit oracle arguments.

Modelled from the spec: the `bcrypt` library is an external collaborator;
the spec directs implementers to model it as one ideal
`SecureHash(value) -> digest` / `SecureVerify(value, digest) -> bool`
capability whose digest embeds the salt and whose verification
recomputes and compares.  `bhashpw`/`bcheckpw` below realise that ideal
primitive: a digest is the salt together with a MAC component determined
by the hashed value and the salt, and verification recomputes the MAC
from the presented value and the digest's own salt.
-/

namespace Bcrypt

/-- Modelled from the spec: an ideal bcrypt digest — the salt, plus a MAC
component determined injectively by the hashed value and the salt. -/
structure BDigest where
  salt : Nat
  mac : String × Nat
  deriving DecidableEq, Repr

/-- Modelled from the spec: `bcrypt.hashpw(value, gensalt())` as the ideal
`SecureHash` — the digest records the salt and the MAC of (value, salt). -/
def bhashpw (value : String) (salt : Nat) : BDigest :=
  ⟨salt, (value, salt)⟩

/-- Modelled from the spec: `bcrypt.checkpw(value, digest)` as the ideal
`SecureVerify` — recompute the MAC from the presented value and the
digest's embedded salt, compare with the stored MAC. -/
def bcheckpw (value : String) (d : BDigest) : Bool :=
  d.mac == (value, d.salt)

/-- Cookie bytes presented as a proof: either well-formed digest bytes or
malformed bytes, on which `bcrypt.checkpw` raises `ValueError`. -/
inductive ProofBytes where
  | malformed
  | wf (d : BDigest)
  deriving DecidableEq, Repr

/-- `bcrypt.checkpw` on raw cookie bytes: `ValueError` (modelled as
`Except.error ()`) on malformed bytes, otherwise the boolean verdict. -/
def bcheckpwBytes (value : String) (b : ProofBytes) : Except Unit Bool :=
  match b with
  | .malformed => .error ()
  | .wf d => .ok (bcheckpw value d)

end Bcrypt

namespace DataHandler

open Bcrypt

/-- `users` table row: `users(id, email, password)`; the `password` column
holds the bcrypt digest of the plaintext. -/
structure UserRow where
  id : String
  email : String
  password : BDigest
  deriving DecidableEq, Repr

/-- `teams` table row: `teams(id, user_id, name)`. -/
structure TeamRow where
  id : String
  user_id : String
  name : String
  deriving DecidableEq, Repr

/-- `team_members` table row:
`team_members(id, team_id, name, email, phone_number, grade, school_name, city, pin_code)`. -/
structure MemberRow where
  id : String
  team_id : String
  name : String
  email : String
  phone_number : String
  grade : String
  school_name : String
  city : String
  pin_code : String
  deriving DecidableEq, Repr

/-- `TeamDocument` table row: `TeamDocument(id, team_id, path)`. -/
structure DocRow where
  id : String
  team_id : String
  path : String
  deriving DecidableEq, Repr

/-- The relational store behind the gateway: the four tables. -/
structure Store where
  users : List UserRow
  teams : List TeamRow
  team_members : List MemberRow
  documents : List DocRow
  deriving DecidableEq, Repr

/-- `Team` response model (`data_handler.py` lines 18–20). -/
structure Team where
  id : String
  name : String
  deriving DecidableEq, Repr

/-- `TeamMemberDetails` response model (`data_handler.py` lines 7–15). -/
structure TeamMemberDetails where
  name : String
  email : String
  phone_number : String
  grade : String
  school_name : String
  city : String
  pin_code : String
  team_id : String
  deriving DecidableEq, Repr

/-- The exception classes declared in `data_handler.py` lines 24–41.
There is no duplicate-team exception class in the source. -/
inductive DhError where
  | generalError
  | userMailExists
  | invalidEmail
  | teamFull
  | invalidTeamId
  | noSuchTeamMember
  deriving DecidableEq, Repr

/-- Whether a `users` INSERT of `(user_id, email, …)` violates a store
constraint (unique email, or primary-key collision on the id) — the
condition under which MariaDB raises `IntegrityError`. -/
def usersInsertConflict (st : Store) (user_id email : String) : Bool :=
  st.users.any (fun u => u.email == email || u.id == user_id)

/-- `register_user` (`data_handler.py` lines 62–76): hash the password,
INSERT the row; an `IntegrityError` is re-raised as `UserMailExists` and
nothing is committed.  The fresh id from `__generate_id` and the bcrypt
salt are oracle arguments. -/
def register_user (st : Store) (freshId : String) (salt : Nat)
    (email password : String) : Store × Except DhError String :=
  let user_id := freshId
  let phash := bhashpw password salt
  if usersInsertConflict st user_id email then
    (st, .error .userMailExists)
  else
    ({st with users := st.users ++ [⟨user_id, email, phash⟩]}, .ok user_id)

/-- `verify_password` (`data_handler.py` lines 78–86): SELECT the password
of the first row with the given email; raise `InvalidEmail` if none;
otherwise `bcrypt.checkpw` against the stored digest. -/
def verify_password (st : Store) (email password : String) :
    Except DhError Bool :=
  match st.users.find? (fun u => u.email == email) with
  | none => .error .invalidEmail
  | some u => .ok (bcheckpw password u.password)

/-- `get_user_id` (`data_handler.py` lines 88–98): SELECT the id of the
first row with the given email; raise `InvalidEmail` if none. -/
def get_user_id (st : Store) (email : String) : Except DhError String :=
  match st.users.find? (fun u => u.email == email) with
  | none => .error .invalidEmail
  | some u => .ok u.id

/-- Whether a `teams` INSERT of `(team_id, user_id, …)` violates a store
constraint (primary-key collision, or the `user_id` foreign key naming no
user) — the condition for `IntegrityError`. -/
def teamsInsertConflict (st : Store) (team_id user_id : String) : Bool :=
  st.teams.any (fun t => t.id == team_id) ||
    !(st.users.any (fun u => u.id == user_id))

/-- `create_team` (`data_handler.py` lines 100–112): INSERT the team row;
an `IntegrityError` is re-raised as `UserMailExists(str(e))` — the same
exception class the register path uses — and nothing is committed. -/
def create_team (st : Store) (freshId : String) (user_id name : String) :
    Store × Except DhError String :=
  let team_id := freshId
  if teamsInsertConflict st team_id user_id then
    (st, .error .userMailExists)
  else
    ({st with teams := st.teams ++ [⟨team_id, user_id, name⟩]}, .ok team_id)

/-- `get_user_id_for_team` (`data_handler.py` lines 114–124): SELECT the
owning user id of the first team row with the given id; raise
`InvalidTeamId` if none. -/
def get_user_id_for_team (st : Store) (team_id : String) :
    Except DhError String :=
  match st.teams.find? (fun t => t.id == team_id) with
  | none => .error .invalidTeamId
  | some t => .ok t.user_id

/-- The member rows of a team, in store order: the result set of
`SELECT … FROM team_members WHERE team_id = ?`. -/
def membersOf (st : Store) (team_id : String) : List MemberRow :=
  st.team_members.filter (fun m => m.team_id == team_id)

/-- The team's current member count. -/
def memberCount (st : Store) (team_id : String) : Nat :=
  (membersOf st team_id).length

/-- The result set of `SELECT 1 FROM teams WHERE id = ?` is non-empty. -/
def teamExists (st : Store) (team_id : String) : Bool :=
  st.teams.any (fun t => t.id == team_id)

/-- `add_team_member` (`data_handler.py` lines 126–158): (a) SELECT the
team row — raise `InvalidTeamId` if absent; (b) count the team's member
rows — raise `TeamFull` when at least 4; (c) INSERT the member row and
commit, returning the fresh member id.  Each raise precedes the INSERT,
so an error leaves the store untouched. -/
def add_team_member (st : Store) (freshId : String)
    (team_id name email phone_number grade school_name city pin_code : String) :
    Store × Except DhError String :=
  let member_id := freshId
  if !teamExists st team_id then
    (st, .error .invalidTeamId)
  else if 4 ≤ memberCount st team_id then
    (st, .error .teamFull)
  else
    ({st with team_members := st.team_members ++
        [⟨member_id, team_id, name, email, phone_number, grade,
          school_name, city, pin_code⟩]},
     .ok member_id)

/-- `get_user_teams` (`data_handler.py` lines 160–170): the teams owned by
the user, in store order. -/
def get_user_teams (st : Store) (user_id : String) : List Team :=
  (st.teams.filter (fun t => t.user_id == user_id)).map
    (fun t => ⟨t.id, t.name⟩)

/-- `get_team_members` (`data_handler.py` lines 172–179): the ids of the
team's member rows; no validation of the team id. -/
def get_team_members (st : Store) (team_id : String) : List String :=
  (membersOf st team_id).map (fun m => m.id)

/-- `get_team_member_details` (`data_handler.py` lines 181–201): SELECT
the first row matching both ids; raise `NoSuchTeamMember` if none. -/
def get_team_member_details (st : Store) (team_id team_member_id : String) :
    Except DhError TeamMemberDetails :=
  match st.team_members.find?
      (fun m => m.id == team_member_id && m.team_id == team_id) with
  | none => .error .noSuchTeamMember
  | some m =>
      .ok ⟨m.name, m.email, m.phone_number, m.grade, m.school_name,
           m.city, m.pin_code, m.team_id⟩

/-- `add_document` (`data_handler.py` lines 203–212): fire-and-forget
INSERT of a document row; no validation. -/
def add_document (st : Store) (freshId : String) (team_id path : String) :
    Store × Except DhError String :=
  let doc_id := freshId
  ({st with documents := st.documents ++ [⟨doc_id, team_id, path⟩]},
   .ok doc_id)

end DataHandler

namespace Main

open Bcrypt DataHandler

/-- The cookie pair every privileged endpoint reads
(`main.py` lines 13–16): the claimed user id and the proof bytes. -/
structure CookiesBase where
  user_id : String
  hashed_user_id : ProofBytes
  deriving DecidableEq, Repr

/-- An exception escaping an endpoint uncaught (FastAPI answers 500):
either `bcrypt`'s `ValueError` or a `data_handler` exception. -/
inductive PyErr where
  | valueError
  | dh (e : DhError)
  deriving DecidableEq, Repr

/-- `get_id` (`main.py` lines 28–37): run `bcrypt.checkpw` on the cookie
pair; a `ValueError` (malformed bytes) and a mismatch both become
`AuthenticationFailure` (modelled `Except.error ()`); on success return
the claimed user id. -/
def get_id (cookies : CookiesBase) : Except Unit String :=
  match bcheckpwBytes cookies.user_id cookies.hashed_user_id with
  | .error _ => .error ()
  | .ok false => .error ()
  | .ok true => .ok cookies.user_id

/-- `GetIdResponse` (`main.py` lines 20–22). -/
structure GetIdResponse where
  id : String
  success : Bool
  deriving DecidableEq, Repr

/-- `/api/get-id` (`main.py` lines 40–47): runs `bcrypt.checkpw` directly
— a `ValueError` on malformed proof bytes is not caught and escapes the
endpoint. -/
def get_current_id (cookie : CookiesBase) : Except PyErr GetIdResponse :=
  match bcheckpwBytes cookie.user_id cookie.hashed_user_id with
  | .error _ => .error .valueError
  | .ok false => .ok ⟨"-1", false⟩
  | .ok true => .ok ⟨cookie.user_id, true⟩

/-- `RegisterRequest` (`main.py` lines 50–52). -/
structure RegisterRequest where
  email : String
  password : String
  deriving DecidableEq, Repr

/-- `RegisterResponse` (`main.py` lines 54–58). -/
structure RegisterResponse where
  id : String
  success : Bool
  email_unique : Bool
  password_acceptable : Bool
  deriving DecidableEq, Repr

/-- The identity cookie pair an endpoint sets on its response:
`("user_id", id)` and `("hashed_user_id", bcrypt.hashpw(id))`, or none. -/
def IdentityCookies := Option (String × BDigest)
  deriving DecidableEq, Repr

/-- `/api/register` (`main.py` lines 60–89): reject passwords shorter
than 8 characters before touching the store; otherwise `register_user`,
set the identity cookies and report success, or catch `UserMailExists`
and report a non-unique email.  `freshId`/`psalt` feed `register_user`;
`csalt` is the salt of the cookie digest. -/
def register (st : Store) (freshId : String) (psalt csalt : Nat)
    (request : RegisterRequest) :
    RegisterResponse × Store × IdentityCookies :=
  if request.password.length < 8 then
    (⟨"-1", false, true, false⟩, st, none)
  else
    match DataHandler.register_user st freshId psalt
        request.email request.password with
    | (_, .error _) => (⟨"-1", false, false, true⟩, st, none)
    | (st1, .ok id) =>
        (⟨id, true, true, true⟩, st1, some (id, bhashpw id csalt))

/-- `LoginRequest` (`main.py` lines 91–93). -/
structure LoginRequest where
  email : String
  password : String
  deriving DecidableEq, Repr

/-- `LoginResponse` (`main.py` lines 96–99). -/
structure LoginResponse where
  success : Bool
  email_correct : Bool
  password_correct : Bool
  deriving DecidableEq, Repr

/-- `/api/login` (`main.py` lines 102–128): verify the password — an
`InvalidEmail` from either store call is caught and reported as an
incorrect email; a failed check reports an incorrect password; on
success resolve the id and set the identity cookies. -/
def login (st : Store) (csalt : Nat) (request : LoginRequest) :
    LoginResponse × IdentityCookies :=
  match DataHandler.verify_password st request.email request.password with
  | .error _ => (⟨false, false, true⟩, none)
  | .ok false => (⟨false, true, false⟩, none)
  | .ok true =>
      match DataHandler.get_user_id st request.email with
      | .error _ => (⟨false, false, true⟩, none)
      | .ok id => (⟨true, true, true⟩, some (id, bhashpw id csalt))

/-- `CreateTeamRequest` (`main.py` lines 137–138). -/
structure CreateTeamRequest where
  team_name : String
  deriving DecidableEq, Repr

/-- The `team_id: str|int` field of `CreateTeamResponse`. -/
inductive StrOrInt where
  | i (n : Int)
  | s (v : String)
  deriving DecidableEq, Repr

/-- `CreateTeamResponse` (`main.py` lines 141–144). -/
structure CreateTeamResponse where
  team_id : StrOrInt
  success : Bool
  logged_in : Bool
  deriving DecidableEq, Repr

/-- `/api/create-team` (`main.py` lines 147–154): an authentication
failure yields `logged_in=false`; otherwise `create_team` runs with no
`except` around it, so its `UserMailExists` escapes the endpoint. -/
def create_team (st : Store) (freshId : String) (cookies : CookiesBase)
    (request : CreateTeamRequest) :
    Except PyErr (Store × CreateTeamResponse) :=
  match get_id cookies with
  | .error _ => .ok (st, ⟨.i (-1), false, false⟩)
  | .ok user_id =>
      match DataHandler.create_team st freshId user_id request.team_name with
      | (_, .error e) => .error (.dh e)
      | (st1, .ok id) => .ok (st1, ⟨.s id, true, true⟩)

/-- `AddTeamMemberRequest` (`main.py` lines 157–165). -/
structure AddTeamMemberRequest where
  team_id : String
  name : String
  email : String
  phone_number : String
  grade : String
  school_name : String
  city : String
  pin_code : String
  deriving DecidableEq, Repr

/-- `AddTeamMemberResponse` (`main.py` lines 168–173). -/
structure AddTeamMemberResponse where
  success : Bool
  logged_in : Bool
  space_available : Bool
  team_created : Bool
  user_team_match : Bool
  deriving DecidableEq, Repr

/-- `/api/add-team-member` (`main.py` lines 176–233): authenticate via
`get_id`; then `assert user_id == get_user_id_for_team(team_id)` with
`InvalidTeamId` and `AssertionError` handlers; then the gateway
`add_team_member` with `TeamFull` and `InvalidTeamId` handlers.  Any
other gateway exception would escape. -/
def add_team_member (st : Store) (freshId : String) (cookies : CookiesBase)
    (request : AddTeamMemberRequest) :
    Except PyErr (Store × AddTeamMemberResponse) :=
  match get_id cookies with
  | .error _ => .ok (st, ⟨false, false, true, true, true⟩)
  | .ok user_id =>
      match DataHandler.get_user_id_for_team st request.team_id with
      | .error _ => .ok (st, ⟨false, true, true, false, false⟩)
      | .ok owner =>
          if user_id == owner then
            match DataHandler.add_team_member st freshId request.team_id
                request.name request.email request.phone_number request.grade
                request.school_name request.city request.pin_code with
            | (st1, .ok _) => .ok (st1, ⟨true, true, true, true, true⟩)
            | (_, .error .teamFull) =>
                .ok (st, ⟨false, true, false, true, true⟩)
            | (_, .error .invalidTeamId) =>
                .ok (st, ⟨false, true, false, false, true⟩)
            | (_, .error e) => .error (.dh e)
          else .ok (st, ⟨false, true, true, true, false⟩)

/-- `GetTeamsResponse` (`main.py` lines 236–239). -/
structure GetTeamsResponse where
  team_ids : List Team
  success : Bool
  logged_in : Bool
  deriving DecidableEq, Repr

/-- `/api/get-teams` (`main.py` lines 241–251): an authentication failure
yields `logged_in=false`; otherwise list the caller's teams. -/
def get_teams (st : Store) (cookies : CookiesBase) : GetTeamsResponse :=
  match get_id cookies with
  | .error _ => ⟨[], false, false⟩
  | .ok user_id => ⟨DataHandler.get_user_teams st user_id, true, true⟩

/-- `GetTeamMemberRequest` (`main.py` lines 254–255). -/
structure GetTeamMemberRequest where
  team_id : String
  deriving DecidableEq, Repr

/-- `GetTeamMemberResoponse` (`main.py` lines 257–261), source spelling
kept. -/
structure GetTeamMemberResoponse where
  team_member_ids : List String
  success : Bool
  logged_in : Bool
  user_team_match : Bool
  deriving DecidableEq, Repr

/-- `/api/get-team-members` (`main.py` lines 263–286): the guarding
statement is `assert get_user_id_for_team(team_id) == get_id(cookies)` —
the team lookup runs first, and its `InvalidTeamId` is caught by neither
the `AuthenticationFailure` nor the `AssertionError` handler, so it
escapes the endpoint. -/
def get_team_members (st : Store) (cookies : CookiesBase)
    (request : GetTeamMemberRequest) : Except PyErr GetTeamMemberResoponse :=
  match DataHandler.get_user_id_for_team st request.team_id with
  | .error e => .error (.dh e)
  | .ok owner =>
      match get_id cookies with
      | .error _ => .ok ⟨[], false, false, true⟩
      | .ok user_id =>
          if owner == user_id then
            .ok ⟨DataHandler.get_team_members st request.team_id,
                 true, true, true⟩
          else .ok ⟨[], false, true, false⟩

/-- `GetTeamMemberDetailsRequest` (`main.py` lines 289–291). -/
structure GetTeamMemberDetailsRequest where
  team_id : String
  team_member_id : String
  deriving DecidableEq, Repr

/-- `GetTeamMemberDeatailsResoponse` (`main.py` lines 293–298), source
spelling kept. -/
structure GetTeamMemberDeatailsResoponse where
  team_member_details : Option TeamMemberDetails
  success : Bool
  logged_in : Bool
  user_team_match : Bool
  team_member_exists : Bool
  deriving DecidableEq, Repr

/-- `/api/get-team-member-details` (`main.py` lines 300–335): same
assert-first guard as `/api/get-team-members` (so `InvalidTeamId`
escapes); then the detail lookup with a `NoSuchTeamMember` handler. -/
def get_team_member_details (st : Store) (cookies : CookiesBase)
    (request : GetTeamMemberDetailsRequest) :
    Except PyErr GetTeamMemberDeatailsResoponse :=
  match DataHandler.get_user_id_for_team st request.team_id with
  | .error e => .error (.dh e)
  | .ok owner =>
      match get_id cookies with
      | .error _ => .ok ⟨none, false, false, true, true⟩
      | .ok user_id =>
          if owner == user_id then
            match DataHandler.get_team_member_details st request.team_id
                request.team_member_id with
            | .error _ => .ok ⟨none, false, true, true, false⟩
            | .ok details => .ok ⟨some details, true, true, true, true⟩
          else .ok ⟨none, false, true, false, true⟩

end Main

namespace DataHandler

/-- A store-mutating gateway call, with its oracle arguments (fresh id,
salt) recorded in the operation. -/
inductive GatewayOp where
  | registerUser (freshId : String) (salt : Nat) (email password : String)
  | createTeam (freshId user_id name : String)
  | addTeamMember (freshId team_id name email phone_number grade
      school_name city pin_code : String)
  | addDocument (freshId team_id path : String)
  deriving DecidableEq, Repr

/-- Run one gateway call. -/
def runOp (st : Store) (op : GatewayOp) : Store × Except DhError String :=
  match op with
  | .registerUser f s e p => register_user st f s e p
  | .createTeam f u n => create_team st f u n
  | .addTeamMember f t n e ph g sc ci pc =>
      add_team_member st f t n e ph g sc ci pc
  | .addDocument f t p => add_document st f t p

/-- The store after one gateway call (unchanged when the call errors). -/
def applyOp (st : Store) (op : GatewayOp) : Store :=
  (runOp st op).1

/-- The store after a sequence of gateway calls. -/
def applyOps (st : Store) (ops : List GatewayOp) : Store :=
  ops.foldl applyOp st

/-- The member-field payload of one `add_team_member` call, with its
fresh-id oracle. -/
structure MemberArgs where
  freshId : String
  name : String
  email : String
  phone_number : String
  grade : String
  school_name : String
  city : String
  pin_code : String
  deriving DecidableEq, Repr

/-- The row an `add_team_member` call would INSERT. -/
def mkMemberRow (a : MemberArgs) (team_id : String) : MemberRow :=
  ⟨a.freshId, team_id, a.name, a.email, a.phone_number, a.grade,
   a.school_name, a.city, a.pin_code⟩

/-- `add_team_member` with its payload bundled. -/
def addM (st : Store) (team_id : String) (a : MemberArgs) :
    Store × Except DhError String :=
  add_team_member st a.freshId team_id a.name a.email a.phone_number
    a.grade a.school_name a.city a.pin_code

/-- The store after a sequence of `add_team_member` calls on one team. -/
def addChain (st : Store) (team_id : String) (calls : List MemberArgs) :
    Store :=
  calls.foldl (fun s a => (addM s team_id a).1) st

end DataHandler

namespace Fixtures

open Bcrypt DataHandler Main

/-- An empty store. -/
def stEmpty : Store := ⟨[], [], [], []⟩

/-- A registered user row. -/
def u1 : UserRow := ⟨"100001", "a@x.com", bhashpw "password1" 7⟩

/-- A second registered user row. -/
def u2 : UserRow := ⟨"100002", "b@x.com", bhashpw "password2" 7⟩

/-- A team owned by user `100001`. -/
def t1 : TeamRow := ⟨"200000", "100001", "Team A"⟩

/-- A store with one registered user. -/
def stU : Store := ⟨[u1], [], [], []⟩

/-- A store with two users and a fresh (member-less) team owned by
user `100001`. -/
def stT : Store := ⟨[u1, u2], [t1], [], []⟩

/-- A valid cookie pair for user `100001`. -/
def goodCookies : CookiesBase := ⟨"100001", .wf (bhashpw "100001" 9)⟩

/-- A valid cookie pair for user `100002`. -/
def otherCookies : CookiesBase := ⟨"100002", .wf (bhashpw "100002" 9)⟩

/-- A cookie pair whose proof verifies a different identifier: the
check fails. -/
def badCookies : CookiesBase := ⟨"100001", .wf (bhashpw "999999" 9)⟩

/-- A cookie pair with malformed proof bytes. -/
def malformedCookies : CookiesBase := ⟨"100001", .malformed⟩

/-- A member payload used in capacity scenarios. -/
def memA : MemberArgs :=
  ⟨"300001", "Ann", "ann@x.com", "1", "10", "High", "City", "560001"⟩

end Fixtures

namespace Bcrypt

theorem bcheckpw_self (v : String) (s : Nat) :
    bcheckpw v (bhashpw v s) = true := by
  simp [bcheckpw, bhashpw]

theorem bcheckpw_of_ne (v w : String) (s : Nat) (h : w ≠ v) :
    bcheckpw w (bhashpw v s) = false := by
  simp only [bcheckpw, bhashpw, beq_eq_false_iff_ne, ne_eq, Prod.mk.injEq,
    not_and]
  intro hv
  exact absurd hv.symm h

theorem bcheckpw_salt_altered (v : String) (s s2 : Nat) (h : s2 ≠ s) :
    bcheckpw v ⟨s2, (bhashpw v s).mac⟩ = false := by
  simp only [bcheckpw, bhashpw, beq_eq_false_iff_ne, ne_eq, Prod.mk.injEq,
    not_and]
  intro _
  exact fun hs => h hs.symm

theorem bcheckpw_mac_altered (v : String) (s : Nat) (m2 : String × Nat)
    (h : m2 ≠ (v, s)) :
    bcheckpw v ⟨(bhashpw v s).salt, m2⟩ = false := by
  simpa only [bcheckpw, bhashpw, beq_eq_false_iff_ne] using h

end Bcrypt

namespace DataHandler

theorem teamExists_iff (st : Store) (t : String) :
    teamExists st t = true ↔ ∃ tr ∈ st.teams, tr.id = t := by
  simp [teamExists]

theorem memberCount_append_single (st : Store) (row : MemberRow)
    (t : String) :
    memberCount {st with team_members := st.team_members ++ [row]} t =
      memberCount st t + (if row.team_id == t then 1 else 0) := by
  by_cases h : row.team_id == t <;>
    simp [memberCount, membersOf, List.filter_append, h]

theorem get_user_id_for_team_of_exists (st : Store) (t : String)
    (hex : teamExists st t = true) :
    ∃ uid, get_user_id_for_team st t = .ok uid := by
  unfold get_user_id_for_team
  have hsome : (st.teams.find? (fun tr => tr.id == t)).isSome := by
    rw [List.find?_isSome]
    simpa [teamExists] using hex
  cases hf : st.teams.find? (fun tr => tr.id == t) with
  | none => rw [hf] at hsome; simp at hsome
  | some tr => exact ⟨tr.user_id, rfl⟩

theorem get_user_id_for_team_of_missing (st : Store) (t : String)
    (hmiss : teamExists st t = false) :
    get_user_id_for_team st t = .error .invalidTeamId := by
  unfold get_user_id_for_team
  have hnone : st.teams.find? (fun tr => tr.id == t) = none := by
    rw [List.find?_eq_none]
    intro x hx hpx
    have : teamExists st t = true := by
      unfold teamExists
      exact List.any_eq_true.mpr ⟨x, hx, hpx⟩
    rw [this] at hmiss
    exact Bool.noConfusion hmiss
  rw [hnone]

theorem addM_success (st : Store) (t : String) (a : MemberArgs)
    (hex : teamExists st t = true) (hlt : memberCount st t < 4) :
    addM st t a =
      ({st with team_members := st.team_members ++ [mkMemberRow a t]},
       .ok a.freshId) := by
  unfold addM add_team_member
  rw [hex]
  simp [Nat.not_le.mpr hlt, mkMemberRow]

theorem addM_full (st : Store) (t : String) (a : MemberArgs)
    (hex : teamExists st t = true) (hge : 4 ≤ memberCount st t) :
    addM st t a = (st, .error .teamFull) := by
  unfold addM add_team_member
  rw [hex]
  simp [hge]

theorem teamExists_addM (st : Store) (t t2 : String) (a : MemberArgs) :
    teamExists (addM st t2 a).1 t = teamExists st t := by
  unfold addM add_team_member
  split_ifs <;> rfl

theorem applyOp_capacity (st : Store) (op : GatewayOp) (t : String)
    (h : memberCount st t ≤ 4) : memberCount (applyOp st op) t ≤ 4 := by
  cases op with
  | registerUser f s e p =>
      show memberCount (register_user st f s e p).1 t ≤ 4
      unfold register_user
      dsimp only
      split_ifs <;> exact h
  | createTeam f u n =>
      show memberCount (create_team st f u n).1 t ≤ 4
      unfold create_team
      dsimp only
      split_ifs <;> exact h
  | addDocument f t2 p => exact h
  | addTeamMember f t2 n e ph g sc ci pc =>
      show memberCount (add_team_member st f t2 n e ph g sc ci pc).1 t ≤ 4
      unfold add_team_member
      split_ifs with h1 h2
      · exact h
      · exact h
      · rw [memberCount_append_single]
        by_cases ht : t2 = t
        · subst ht
          have hlt : memberCount st t2 < 4 := Nat.not_le.mp h2
          simp
          omega
        · have hne : (t2 == t) = false := beq_eq_false_iff_ne.mpr ht
          simp only [hne]
          simp
          exact h

theorem applyOps_capacity (st : Store) (ops : List GatewayOp) (t : String)
    (h : memberCount st t ≤ 4) : memberCount (applyOps st ops) t ≤ 4 := by
  induction ops generalizing st with
  | nil => exact h
  | cons op rest ih => exact ih (applyOp st op) (applyOp_capacity st op t h)

end DataHandler

namespace DataHandler

theorem addM_invariants (st : Store) (t : String) (a : MemberArgs)
    (hex : teamExists st t = true) (hlt : memberCount st t < 4) :
    (addM st t a).2 = .ok a.freshId ∧
    teamExists (addM st t a).1 t = true ∧
    memberCount (addM st t a).1 t = memberCount st t + 1 := by
  have h := addM_success st t a hex hlt
  refine ⟨by rw [h], ?_, ?_⟩
  · rw [teamExists_addM]
    exact hex
  · rw [h]
    rw [memberCount_append_single]
    simp [mkMemberRow]

/-- C1: starting from any store in which team `t` holds at most 4
members, no sequence of gateway operations pushes `t`'s member count
above 4; `add_team_member` on a team that already has 4 or more members
fails with `TeamFull` and inserts no row; and five sequential
`add_team_member` calls on a fresh (existing, member-less) team succeed
for calls 1–4 and fail with `TeamFull` on call 5, leaving the count
at 4. -/
theorem C1_team_capacity (st : Store) (t : String)
    (h4 : memberCount st t ≤ 4) :
    (∀ ops : List GatewayOp, memberCount (applyOps st ops) t ≤ 4) ∧
    (4 ≤ memberCount st t → teamExists st t = true →
      ∀ a : MemberArgs, addM st t a = (st, .error .teamFull)) ∧
    (teamExists st t = true → memberCount st t = 0 →
      ∀ a1 a2 a3 a4 a5 : MemberArgs,
        (addM (addChain st t []) t a1).2 = .ok a1.freshId ∧
        (addM (addChain st t [a1]) t a2).2 = .ok a2.freshId ∧
        (addM (addChain st t [a1, a2]) t a3).2 = .ok a3.freshId ∧
        (addM (addChain st t [a1, a2, a3]) t a4).2 = .ok a4.freshId ∧
        addM (addChain st t [a1, a2, a3, a4]) t a5 =
          (addChain st t [a1, a2, a3, a4], .error .teamFull) ∧
        memberCount (addChain st t [a1, a2, a3, a4]) t = 4) := by
  refine ⟨fun ops => applyOps_capacity st ops t h4, ?_, ?_⟩
  · intro hge hex a
    exact addM_full st t a hex hge
  · intro hex h0 a1 a2 a3 a4 a5
    simp only [addChain, List.foldl]
    have i1 := addM_invariants st t a1 hex (by omega)
    have i2 := addM_invariants (addM st t a1).1 t a2 i1.2.1
      (by rw [i1.2.2, h0]; omega)
    have i3 := addM_invariants (addM (addM st t a1).1 t a2).1 t a3 i2.2.1
      (by rw [i2.2.2, i1.2.2, h0]; omega)
    have i4 := addM_invariants
      (addM (addM (addM st t a1).1 t a2).1 t a3).1 t a4 i3.2.1
      (by rw [i3.2.2, i2.2.2, i1.2.2, h0]; omega)
    have c4 : memberCount
        (addM (addM (addM (addM st t a1).1 t a2).1 t a3).1 t a4).1 t = 4 := by
      rw [i4.2.2, i3.2.2, i2.2.2, i1.2.2, h0]
    exact ⟨i1.1, i2.1, i3.1, i4.1,
      addM_full _ t a5 i4.2.1 (by rw [c4]), c4⟩

/-- Witness for C1 on the concrete fresh team `"200000"` of `stT`. -/
theorem C1_team_capacity_witness :
    memberCount Fixtures.stT "200000" ≤ 4 ∧
    teamExists Fixtures.stT "200000" = true ∧
    memberCount Fixtures.stT "200000" = 0 ∧
    addM (addChain Fixtures.stT "200000"
        [Fixtures.memA, Fixtures.memA, Fixtures.memA, Fixtures.memA])
      "200000" Fixtures.memA =
      (addChain Fixtures.stT "200000"
        [Fixtures.memA, Fixtures.memA, Fixtures.memA, Fixtures.memA],
       .error .teamFull) :=
  ⟨by decide, by decide, by decide,
   ((C1_team_capacity Fixtures.stT "200000" (by decide)).2.2 (by decide)
      (by decide) Fixtures.memA Fixtures.memA Fixtures.memA Fixtures.memA
      Fixtures.memA).2.2.2.2.1⟩

/-- C2: `add_team_member` follows exactly the sequence: an unknown team
id fails with `InvalidTeamId`; an existing team with at least 4 members
fails with `TeamFull`; otherwise the member row is inserted and the
fresh member id returned — and both error outcomes return the store
exactly as it was (no partial write). -/
theorem C2_add_team_member_sequence (st : Store)
    (freshId t nm em ph gr sc ci pc : String) :
    ((¬ ∃ tr ∈ st.teams, tr.id = t) →
      add_team_member st freshId t nm em ph gr sc ci pc =
        (st, .error .invalidTeamId)) ∧
    ((∃ tr ∈ st.teams, tr.id = t) → 4 ≤ memberCount st t →
      add_team_member st freshId t nm em ph gr sc ci pc =
        (st, .error .teamFull)) ∧
    ((∃ tr ∈ st.teams, tr.id = t) → memberCount st t < 4 →
      add_team_member st freshId t nm em ph gr sc ci pc =
        ({st with team_members := st.team_members ++
            [⟨freshId, t, nm, em, ph, gr, sc, ci, pc⟩]},
         .ok freshId)) := by
  refine ⟨?_, ?_, ?_⟩
  · intro hne
    have hex : teamExists st t = false := by
      cases hb : teamExists st t
      · rfl
      · exact absurd ((teamExists_iff st t).mp hb) hne
    unfold add_team_member
    rw [hex]
    simp
  · intro hexists hge
    unfold add_team_member
    rw [(teamExists_iff st t).mpr hexists]
    simp [hge]
  · intro hexists hlt
    unfold add_team_member
    rw [(teamExists_iff st t).mpr hexists]
    simp [Nat.not_le.mpr hlt]

/-- Witness for C2: inserting into the fresh team `"200000"` of `stT`
succeeds with the fresh member id. -/
theorem C2_add_team_member_sequence_witness :
    (∃ tr ∈ Fixtures.stT.teams, tr.id = "200000") ∧
    memberCount Fixtures.stT "200000" < 4 ∧
    add_team_member Fixtures.stT "300001" "200000" "Ann" "ann@x.com" "1"
        "10" "High" "City" "560001" =
      ({Fixtures.stT with team_members := Fixtures.stT.team_members ++
          [⟨"300001", "200000", "Ann", "ann@x.com", "1", "10", "High",
            "City", "560001"⟩]},
       .ok "300001") :=
  ⟨by decide, by decide,
   (C2_add_team_member_sequence Fixtures.stT "300001" "200000" "Ann"
      "ann@x.com" "1" "10" "High" "City" "560001").2.2 (by decide)
     (by decide)⟩

end DataHandler

namespace DataHandler

open Bcrypt

/-- C7: after a successful `register_user` for `(email, password)`,
`verify_password` with the same email and password returns `true`, and
with any other password returns `false`. -/
theorem C7_password_roundtrip (st st1 : Store) (freshId : String)
    (salt : Nat) (email password uid : String)
    (h : register_user st freshId salt email password = (st1, .ok uid)) :
    verify_password st1 email password = .ok true ∧
    ∀ p2, p2 ≠ password → verify_password st1 email p2 = .ok false := by
  unfold register_user at h
  dsimp only at h
  split at h
  · simp at h
  · rename_i hcond
    simp only [Prod.mk.injEq, Except.ok.injEq] at h
    obtain ⟨hst, hid⟩ := h
    subst hst
    have hall : ∀ u ∈ st.users, ¬((fun u => u.email == email) u = true) := by
      intro u hu hbe
      apply hcond
      unfold usersInsertConflict
      rw [List.any_eq_true]
      refine ⟨u, hu, ?_⟩
      simp only at hbe
      simp [hbe]
    have hnone : st.users.find? (fun u => u.email == email) = none :=
      List.find?_eq_none.mpr hall
    have hfind : ∀ p2 : String, verify_password
        {st with users :=
          st.users ++ [⟨freshId, email, bhashpw password salt⟩]}
        email p2 = .ok (bcheckpw p2 (bhashpw password salt)) := by
      intro p2
      unfold verify_password
      rw [List.find?_append, hnone]
      simp
    refine ⟨?_, ?_⟩
    · rw [hfind]
      rw [bcheckpw_self]
    · intro p2 hne
      rw [hfind]
      rw [bcheckpw_of_ne password p2 salt hne]

/-- Witness for C7 at a concrete registration over the empty store. -/
theorem C7_password_roundtrip_witness :
    register_user Fixtures.stEmpty "100001" 7 "a@x.com" "password1" =
      (Fixtures.stU, .ok "100001") ∧
    verify_password Fixtures.stU "a@x.com" "password1" = .ok true ∧
    verify_password Fixtures.stU "a@x.com" "password2" = .ok false := by
  refine ⟨rfl, ?_, ?_⟩
  · exact (C7_password_roundtrip Fixtures.stEmpty Fixtures.stU "100001" 7
      "a@x.com" "password1" "100001" rfl).1
  · exact (C7_password_roundtrip Fixtures.stEmpty Fixtures.stU "100001" 7
      "a@x.com" "password1" "100001" rfl).2 "password2" (by decide)

/-- C8: registering the same email a second time fails with the
`UserMailExists` typed error, and the first registration's stored
record (id, email, password digest) is untouched by the failed second
attempt. -/
theorem C8_duplicate_email (st st1 : Store) (f1 f2 : String) (s1 s2 : Nat)
    (email p1 p2 uid : String)
    (h : register_user st f1 s1 email p1 = (st1, .ok uid)) :
    register_user st1 f2 s2 email p2 = (st1, .error .userMailExists) ∧
    st1.users = st.users ++ [⟨f1, email, bhashpw p1 s1⟩] := by
  unfold register_user at h
  dsimp only at h
  split at h
  · simp at h
  · simp only [Prod.mk.injEq, Except.ok.injEq] at h
    obtain ⟨hst, hid⟩ := h
    subst hst
    constructor
    · have hconf : usersInsertConflict
          {st with users := st.users ++ [⟨f1, email, bhashpw p1 s1⟩]}
          f2 email = true := by
        unfold usersInsertConflict
        rw [List.any_eq_true]
        exact ⟨⟨f1, email, bhashpw p1 s1⟩, by simp, by simp⟩
      unfold register_user
      dsimp only
      rw [hconf]
      simp
    · rfl

/-- Witness for C8: re-registering `a@x.com` over `stU`. -/
theorem C8_duplicate_email_witness :
    register_user Fixtures.stU "100003" 4 "a@x.com" "pw123456" =
      (Fixtures.stU, .error .userMailExists) ∧
    Fixtures.stU.users =
      Fixtures.stEmpty.users ++
        [⟨"100001", "a@x.com", bhashpw "password1" 7⟩] :=
  C8_duplicate_email Fixtures.stEmpty Fixtures.stU "100001" "100003" 7 4
    "a@x.com" "password1" "pw123456" "100001" rfl

/-- C9 counterexample: a `create_team` insert the store rejects (the
fresh team id collides with the existing team of `stT`) raises
`UserMailExists` — the very error a duplicate-email registration
produces, not a distinct duplicate-team error class. -/
theorem C9_counterexample :
    create_team Fixtures.stT "200000" "100001" "Team B" =
      (Fixtures.stT, .error .userMailExists) ∧
    register_user Fixtures.stU "100002" 3 "a@x.com" "pw123456" =
      (Fixtures.stU, .error .userMailExists) := ⟨rfl, rfl⟩

/-- C9 amended: when the store rejects the `create_team` insert with an
integrity violation, `create_team` fails with the `UserMailExists`
typed error — the same class used for duplicate emails, there being no
distinct duplicate-team error class in the code — and otherwise it
returns the fresh team id. -/
theorem C9_create_team_amended (st : Store) (freshId user_id nm : String) :
    (teamsInsertConflict st freshId user_id = true →
      create_team st freshId user_id nm = (st, .error .userMailExists)) ∧
    (teamsInsertConflict st freshId user_id = false →
      create_team st freshId user_id nm =
        ({st with teams := st.teams ++ [⟨freshId, user_id, nm⟩]},
         .ok freshId)) := by
  constructor
  · intro hc
    unfold create_team
    dsimp only
    rw [hc]
    simp
  · intro hc
    unfold create_team
    dsimp only
    rw [hc]
    simp

/-- Witness for the amended C9 on concrete stores: rejection at `stT`
with a colliding team id, success at `stU`. -/
theorem C9_create_team_amended_witness :
    teamsInsertConflict Fixtures.stT "200000" "100001" = true ∧
    create_team Fixtures.stT "200000" "100001" "Team B" =
      (Fixtures.stT, .error .userMailExists) ∧
    teamsInsertConflict Fixtures.stU "200000" "100001" = false ∧
    create_team Fixtures.stU "200000" "100001" "Team A" =
      ({Fixtures.stU with teams := Fixtures.stU.teams ++
          [⟨"200000", "100001", "Team A"⟩]},
       .ok "200000") :=
  ⟨by decide,
   (C9_create_team_amended Fixtures.stT "200000" "100001" "Team B").1
     (by decide),
   by decide,
   (C9_create_team_amended Fixtures.stU "200000" "100001" "Team A").2
     (by decide)⟩

end DataHandler

namespace Main

open Bcrypt DataHandler

theorem get_id_wf (u : String) (dd : BDigest) :
    Main.get_id ⟨u, .wf dd⟩ = if bcheckpw u dd then .ok u else .error () := by
  cases hb : bcheckpw u dd <;> simp [Main.get_id, bcheckpwBytes, hb]

theorem get_current_id_wf (u : String) (dd : BDigest) :
    Main.get_current_id ⟨u, .wf dd⟩ =
      if bcheckpw u dd then .ok ⟨u, true⟩ else .ok ⟨"-1", false⟩ := by
  cases hb : bcheckpw u dd <;> simp [Main.get_current_id, bcheckpwBytes, hb]

theorem get_id_issued_props (uid : String) (s : Nat) :
    Main.get_id ⟨uid, .wf (bhashpw uid s)⟩ = .ok uid ∧
    (∀ u2, u2 ≠ uid → Main.get_id ⟨u2, .wf (bhashpw uid s)⟩ = .error ()) ∧
    (∀ s2, s2 ≠ (bhashpw uid s).salt →
      Main.get_id ⟨uid, .wf ⟨s2, (bhashpw uid s).mac⟩⟩ = .error ()) ∧
    (∀ m2, m2 ≠ (bhashpw uid s).mac →
      Main.get_id ⟨uid, .wf ⟨(bhashpw uid s).salt, m2⟩⟩ = .error ()) := by
  refine ⟨?_, ?_, ?_, ?_⟩
  · rw [get_id_wf, bcheckpw_self]
    rfl
  · intro u2 hne
    rw [get_id_wf, bcheckpw_of_ne uid u2 s hne]
    rfl
  · intro s2 hne
    rw [get_id_wf, bcheckpw_salt_altered uid s s2 hne]
    rfl
  · intro m2 hne
    rw [get_id_wf, bcheckpw_mac_altered uid s m2 hne]
    rfl

theorem register_cookie_digest (st : Store) (freshId : String)
    (psalt csalt : Nat) (request : RegisterRequest)
    (resp : RegisterResponse) (st1 : Store) (uid : String) (d : BDigest)
    (h : Main.register st freshId psalt csalt request =
      (resp, st1, some (uid, d))) : d = bhashpw uid csalt := by
  unfold Main.register at h
  split at h
  · simp at h
  · split at h
    · simp at h
    · rename_i st2 id heq
      simp only [Prod.mk.injEq] at h
      obtain ⟨h1, h2, h3⟩ := h
      injection h3 with h4
      rw [Prod.mk.injEq] at h4
      obtain ⟨h5, h6⟩ := h4
      subst h5
      exact h6.symm

theorem login_cookie_digest (st : Store) (csalt : Nat)
    (request : LoginRequest) (resp : LoginResponse) (uid : String)
    (d : BDigest)
    (h : Main.login st csalt request = (resp, some (uid, d))) :
    d = bhashpw uid csalt := by
  unfold Main.login at h
  split at h
  · simp at h
  · simp at h
  · split at h
    · simp at h
    · rename_i id heq
      simp only [Prod.mk.injEq] at h
      obtain ⟨h1, h2⟩ := h
      injection h2 with h3
      rw [Prod.mk.injEq] at h3
      obtain ⟨h4, h5⟩ := h3
      subst h4
      exact h5.symm

/-- C10: a registration request whose password is shorter than 8
characters yields `id="-1"`, `success=false`, `email_unique=true` and
`password_acceptable=false`, returns the store unchanged for every
store (the credential store is never consulted) and sets no identity
cookies. -/
theorem C10_short_password (st : Store) (freshId : String)
    (psalt csalt : Nat) (request : RegisterRequest)
    (h : request.password.length < 8) :
    Main.register st freshId psalt csalt request =
      (⟨"-1", false, true, false⟩, st, none) := by
  unfold Main.register
  rw [if_pos h]

/-- Witness for C10 at a concrete five-character password. -/
theorem C10_short_password_witness :
    ("short".length < 8) ∧
    Main.register Fixtures.stT "100009" 3 9 ⟨"b@x.com", "short"⟩ =
      (⟨"-1", false, true, false⟩, Fixtures.stT, none) :=
  ⟨by decide, C10_short_password Fixtures.stT "100009" 3 9
    ⟨"b@x.com", "short"⟩ (by decide)⟩

/-- C3 counterexample: a token pair failing verification does not always
yield a logged-out response with no further work — `/api/get-id`
propagates an uncaught `ValueError` on malformed proof bytes, and
`/api/get-team-members` consults the team table before verifying the
token, propagating an uncaught `InvalidTeamId` when the named team does
not exist. -/
theorem C3_counterexample :
    Main.get_id Fixtures.malformedCookies = .error () ∧
    Main.get_current_id Fixtures.malformedCookies = .error .valueError ∧
    Main.get_team_members Fixtures.stT Fixtures.malformedCookies
      ⟨"999999"⟩ = .error (.dh .invalidTeamId) := ⟨rfl, rfl, rfl⟩

/-- C3 amended: on a token pair failing verification, the endpoints that
authenticate before touching the store (`/api/create-team`,
`/api/add-team-member`, `/api/get-teams`) return their logged-out
response unconditionally — the same response for every store, with the
store unchanged; `/api/get-id` returns its failure response only for
well-formed mismatching bytes (malformed bytes escape uncaught); and
the assert-first endpoints (`/api/get-team-members`,
`/api/get-team-member-details`) resolve the team owner from the store
first and return their logged-out response exactly when the named team
exists (a missing team escapes as an uncaught `InvalidTeamId`). -/
theorem C3_auth_failure (cookies : CookiesBase)
    (h : Main.get_id cookies = .error ()) :
    (∀ st freshId request, Main.create_team st freshId cookies request =
      .ok (st, ⟨.i (-1), false, false⟩)) ∧
    (∀ st freshId request, Main.add_team_member st freshId cookies request =
      .ok (st, ⟨false, false, true, true, true⟩)) ∧
    (∀ st, Main.get_teams st cookies = ⟨[], false, false⟩) ∧
    (∀ d, cookies.hashed_user_id = .wf d →
      Main.get_current_id cookies = .ok ⟨"-1", false⟩) ∧
    (∀ st (request : GetTeamMemberRequest),
      teamExists st request.team_id = true →
      Main.get_team_members st cookies request =
        .ok ⟨[], false, false, true⟩) ∧
    (∀ st (request : GetTeamMemberDetailsRequest),
      teamExists st request.team_id = true →
      Main.get_team_member_details st cookies request =
        .ok ⟨none, false, false, true, true⟩) := by
  refine ⟨?_, ?_, ?_, ?_, ?_, ?_⟩
  · intro st freshId request
    unfold Main.create_team
    rw [h]
  · intro st freshId request
    unfold Main.add_team_member
    rw [h]
  · intro st
    unfold Main.get_teams
    rw [h]
  · intro d hd
    obtain ⟨u, pb⟩ := cookies
    simp only at hd
    subst hd
    rw [get_id_wf] at h
    rw [get_current_id_wf]
    cases hbb : bcheckpw u d
    · simp [hbb]
    · rw [hbb] at h
      simp at h
  · intro st request hex
    obtain ⟨uid, huid⟩ := get_user_id_for_team_of_exists st request.team_id hex
    unfold Main.get_team_members
    rw [huid, h]
  · intro st request hex
    obtain ⟨uid, huid⟩ := get_user_id_for_team_of_exists st request.team_id hex
    unfold Main.get_team_member_details
    rw [huid, h]

/-- Witness for the amended C3 at a concrete mismatching token. -/
theorem C3_auth_failure_witness :
    Main.get_id Fixtures.badCookies = .error () ∧
    Main.get_teams Fixtures.stT Fixtures.badCookies = ⟨[], false, false⟩ ∧
    Main.get_team_members Fixtures.stT Fixtures.badCookies ⟨"200000"⟩ =
      .ok ⟨[], false, false, true⟩ :=
  ⟨rfl, (C3_auth_failure Fixtures.badCookies rfl).2.2.1 Fixtures.stT,
   (C3_auth_failure Fixtures.badCookies rfl).2.2.2.2.1 Fixtures.stT
     ⟨"200000"⟩ (by decide)⟩

/-- C4 counterexample: registration over the empty store issues the
token pair `("100001", bhashpw "100001" 9)`; the digest
`⟨10, ("100001", 10)⟩` — a consistent re-computation under a different
salt — differs from the issued proof, yet still verifies for
`"100001"`.  So verification does not fail for every alteration of the
proof field. -/
theorem C4_counterexample :
    Main.register Fixtures.stEmpty "100001" 7 9 ⟨"a@x.com", "password1"⟩ =
      (⟨"100001", true, true, true⟩, Fixtures.stU,
       some ("100001", bhashpw "100001" 9)) ∧
    (⟨10, ("100001", 10)⟩ : BDigest) ≠ bhashpw "100001" 9 ∧
    Main.get_id ⟨"100001", .wf ⟨10, ("100001", 10)⟩⟩ = .ok "100001" :=
  ⟨rfl, by decide, rfl⟩

/-- C4 amended: the token pair issued on successful registration or
login verifies for its user; verification fails when the identifier is
replaced by any other identifier, and when a single component of the
proof digest (its salt or its MAC — the rendering of a single-bit
change) is altered while the other is kept; but not every alteration of
the proof field fails: a consistent re-computation of the digest for
the same identifier under any other salt also verifies. -/
theorem C4_token_integrity_amended (uid : String) (d : BDigest)
    (h : (∃ st freshId psalt csalt request resp st1,
            Main.register st freshId psalt csalt request =
              (resp, st1, some (uid, d))) ∨
         (∃ st csalt request resp,
            Main.login st csalt request = (resp, some (uid, d)))) :
    Main.get_id ⟨uid, .wf d⟩ = .ok uid ∧
    (∀ u2, u2 ≠ uid → Main.get_id ⟨u2, .wf d⟩ = .error ()) ∧
    (∀ s2, s2 ≠ d.salt → Main.get_id ⟨uid, .wf ⟨s2, d.mac⟩⟩ = .error ()) ∧
    (∀ m2, m2 ≠ d.mac →
      Main.get_id ⟨uid, .wf ⟨d.salt, m2⟩⟩ = .error ()) ∧
    (∀ s2, Main.get_id ⟨uid, .wf (bhashpw uid s2)⟩ = .ok uid) := by
  have hprops : ∀ s : Nat, d = bhashpw uid s →
      Main.get_id ⟨uid, .wf d⟩ = .ok uid ∧
      (∀ u2, u2 ≠ uid → Main.get_id ⟨u2, .wf d⟩ = .error ()) ∧
      (∀ s2, s2 ≠ d.salt → Main.get_id ⟨uid, .wf ⟨s2, d.mac⟩⟩ = .error ()) ∧
      (∀ m2, m2 ≠ d.mac →
        Main.get_id ⟨uid, .wf ⟨d.salt, m2⟩⟩ = .error ()) ∧
      (∀ s2, Main.get_id ⟨uid, .wf (bhashpw uid s2)⟩ = .ok uid) := by
    intro s hd
    subst hd
    obtain ⟨p1, p2, p3, p4⟩ := get_id_issued_props uid s
    exact ⟨p1, p2, p3, p4, fun s2 => (get_id_issued_props uid s2).1⟩
  obtain ⟨st, freshId, psalt, csalt, request, resp, st1, hreg⟩ |
      ⟨st, csalt, request, resp, hlog⟩ := h
  · exact hprops csalt (register_cookie_digest st freshId psalt csalt
      request resp st1 uid d hreg)
  · exact hprops csalt (login_cookie_digest st csalt request resp uid d hlog)

/-- Witness for the amended C4 at a concrete registration over the
empty store. -/
theorem C4_token_integrity_amended_witness :
    Main.get_id ⟨"100001", .wf (bhashpw "100001" 9)⟩ = .ok "100001" ∧
    Main.get_id ⟨"100002", .wf (bhashpw "100001" 9)⟩ = .error () ∧
    Main.get_id ⟨"100001", .wf (bhashpw "100001" 10)⟩ = .ok "100001" :=
  have happ := C4_token_integrity_amended "100001" (bhashpw "100001" 9)
    (.inl ⟨Fixtures.stEmpty, "100001", 7, 9, ⟨"a@x.com", "password1"⟩,
      ⟨"100001", true, true, true⟩, Fixtures.stU, rfl⟩)
  ⟨happ.1, happ.2.1 "100002" (by decide), happ.2.2.2.2 10⟩

/-- C5: a team-scoped operation by an authenticated caller who is not
the recorded owner of the referenced existing team reports
`user_team_match=false`, performs no mutation (the store is returned
unchanged), and includes no team-member data — the response is the same
constant for every store satisfying the ownership hypotheses, hence
independent of the team's member contents. -/
theorem C5_non_owner_rejected (st : Store) (cookies : CookiesBase)
    (uid owner t : String)
    (hauth : Main.get_id cookies = .ok uid)
    (hown : get_user_id_for_team st t = .ok owner)
    (hne : owner ≠ uid) :
    (∀ freshId (request : AddTeamMemberRequest), request.team_id = t →
      Main.add_team_member st freshId cookies request =
        .ok (st, ⟨false, true, true, true, false⟩)) ∧
    Main.get_team_members st cookies ⟨t⟩ = .ok ⟨[], false, true, false⟩ ∧
    (∀ mid, Main.get_team_member_details st cookies ⟨t, mid⟩ =
      .ok ⟨none, false, true, false, true⟩) := by
  have hbe : (uid == owner) = false :=
    beq_eq_false_iff_ne.mpr (fun hh => hne hh.symm)
  have hbe2 : (owner == uid) = false := beq_eq_false_iff_ne.mpr hne
  refine ⟨?_, ?_, ?_⟩
  · intro freshId request hreq
    unfold Main.add_team_member
    rw [hauth, hreq, hown]
    simp [hbe]
  · unfold Main.get_team_members
    rw [hown, hauth]
    simp [hbe2]
  · intro mid
    unfold Main.get_team_member_details
    rw [hown, hauth]
    simp [hbe2]

/-- Witness for C5: user `100002` holds a valid token but does not own
team `200000`. -/
theorem C5_non_owner_rejected_witness :
    Main.get_id Fixtures.otherCookies = .ok "100002" ∧
    get_user_id_for_team Fixtures.stT "200000" = .ok "100001" ∧
    Main.get_team_members Fixtures.stT Fixtures.otherCookies ⟨"200000"⟩ =
      .ok ⟨[], false, true, false⟩ :=
  ⟨rfl, rfl, (C5_non_owner_rejected Fixtures.stT Fixtures.otherCookies
    "100002" "100001" "200000" rfl rfl (by decide)).2.1⟩

/-- C6 counterexample: an authenticated request naming a non-existent
team makes `/api/get-team-members` and `/api/get-team-member-details`
propagate an uncaught `InvalidTeamId` instead of returning a structured
response with a flag. -/
theorem C6_counterexample :
    Main.get_id Fixtures.goodCookies = .ok "100001" ∧
    Main.get_team_members Fixtures.stT Fixtures.goodCookies ⟨"999999"⟩ =
      .error (.dh .invalidTeamId) ∧
    Main.get_team_member_details Fixtures.stT Fixtures.goodCookies
      ⟨"999999", "300001"⟩ = .error (.dh .invalidTeamId) := ⟨rfl, rfl, rfl⟩

/-- C6 amended: on an authenticated request naming a team id that does
not exist, only `/api/add-team-member` surfaces the missing team as a
structured response (`team_created=false`); `/api/get-team-members` and
`/api/get-team-member-details` instead propagate the uncaught
`InvalidTeamId` error. -/
theorem C6_missing_team (st : Store) (cookies : CookiesBase) (uid : String)
    (hauth : Main.get_id cookies = .ok uid)
    (t : String) (hmiss : teamExists st t = false) :
    (∀ freshId (request : AddTeamMemberRequest), request.team_id = t →
      Main.add_team_member st freshId cookies request =
        .ok (st, ⟨false, true, true, false, false⟩)) ∧
    Main.get_team_members st cookies ⟨t⟩ = .error (.dh .invalidTeamId) ∧
    (∀ mid, Main.get_team_member_details st cookies ⟨t, mid⟩ =
      .error (.dh .invalidTeamId)) := by
  have hown := get_user_id_for_team_of_missing st t hmiss
  refine ⟨?_, ?_, ?_⟩
  · intro freshId request hreq
    unfold Main.add_team_member
    rw [hauth, hreq, hown]
  · unfold Main.get_team_members
    rw [hown]
  · intro mid
    unfold Main.get_team_member_details
    rw [hown]

/-- Witness for the amended C6 at team id `999999`, absent from `stT`. -/
theorem C6_missing_team_witness :
    Main.get_id Fixtures.goodCookies = .ok "100001" ∧
    teamExists Fixtures.stT "999999" = false ∧
    Main.add_team_member Fixtures.stT "300001" Fixtures.goodCookies
      ⟨"999999", "Ann", "ann@x.com", "1", "10", "High", "City", "560001"⟩ =
      .ok (Fixtures.stT, ⟨false, true, true, false, false⟩) :=
  ⟨rfl, by decide, (C6_missing_team Fixtures.stT Fixtures.goodCookies
    "100001" rfl "999999" (by decide)).1 "300001"
    ⟨"999999", "Ann", "ann@x.com", "1", "10", "High", "City", "560001"⟩
    rfl⟩

end Main
